import Mathlib

/-!
# Agro2Watch — model loader / inference core, shallow embedding

Shallow embedding of `backend/models/model_loader.py` (class
`MATLABModelLoader`), `backend/config/settings.py` (`Settings` and
`MODEL_CONFIG`) and the crop facade helpers of
`backend/api/v1/endpoints/crop_detection.py`.

Modelling conventions:
* Python floats are modelled as exact rationals `ℚ`.
* `np.exp` is modelled by an abstract strictly positive function carried in
  the numpy environment `NpEnv`; every theorem that needs it assumes
  `∀ q, 0 < exp q`, which holds for the real exponential.
* The stateful global generator `np.random` is modelled by `NpEnv.rng`:
  `_mock_prediction` first executes `np.random.seed(42)` and then draws one
  Dirichlet sample over `n` categories, so the value it obtains is a pure
  function of `n`; `rng n` is that value.  The mathematical guarantee of a
  Dirichlet draw — a point of the probability simplex — is taken as a
  hypothesis where needed.
* Python exceptions are values of `Err`; a function that can raise returns
  `Except Err _`.  The constructors `unknownModelError` and
  `modelOutputMismatchError` mirror names that appear only in the
  specification's error taxonomy; no function of this development (and no
  line of the source) ever produces them.
-/

/-- Python exception classes observable at the loader boundary. -/
inductive Err where
  | valueError
  | keyError
  | indexError
  | typeError
  /-- Named in the spec's taxonomy; never raised by the code. -/
  | unknownModelError
  /-- Named in the spec's taxonomy; never raised by the code. -/
  | modelOutputMismatchError
deriving DecidableEq, Repr

/-- One entry of `MODEL_CONFIG` (settings.py): artifact file name, input
shape `(height, width, channels)`, ordered class list, preprocessing mode. -/
structure ModelCfg where
  file : String
  input_shape : Nat × Nat × Nat
  classes : List String
  preprocessing : String
deriving DecidableEq, Repr

/-- `MODEL_CONFIG` from `backend/config/settings.py`: the three registered
models, with the file names taken from the `Settings` defaults. -/
def MODEL_CONFIG : List (String × ModelCfg) :=
  [ ("crop_health",
      { file := "crop_health_model.mat"
        input_shape := (224, 224, 3)
        classes := ["healthy", "diseased", "nutrient_deficiency", "pest_damage"]
        preprocessing := "normalize_rgb" }),
    ("soil_analysis",
      { file := "soil_analysis_model.mat"
        input_shape := (224, 224, 3)
        classes := ["clay", "sandy", "loamy", "silt"]
        preprocessing := "normalize_rgb" }),
    ("pest_detection",
      { file := "pest_detection_model.mat"
        input_shape := (224, 224, 3)
        classes := ["aphids", "caterpillars", "beetles", "no_pest"]
        preprocessing := "normalize_rgb" }) ]

/-- `MODEL_CONFIG[model_name]` as a partial lookup (`name in MODEL_CONFIG`
membership tests and subscripting both go through this). -/
def lookupConfig (name : String) : Option ModelCfg :=
  (MODEL_CONFIG.find? (fun p => p.1 = name)).map (fun p => p.2)

/-- `Settings.CONFIDENCE_THRESHOLD` (settings.py): global scalar, 0.5. -/
def CONFIDENCE_THRESHOLD : ℚ := 1/2

/-- One layer dict of a MATLAB network structure
(`_forward_pass_matlab_network` reads the keys `weights`, `bias`,
`activation`). -/
structure NetLayer where
  weights : Option (List (List ℚ))
  bias : Option (List ℚ)
  activation : Option String
deriving Repr

/-- The dict stored under the key `"network"` of a loaded `.mat` file;
`_forward_pass_matlab_network` only reads its `"layers"` key. -/
structure NetworkData where
  layers : Option (List NetLayer)
deriving Repr

/-- A dict produced by `scipy.io.loadmat`, restricted to the keys
`_matlab_inference` dispatches on: `network`, `weights`, `bias`,
`classifier`.  `Option.isSome` models Python's `key in model`. -/
structure MatModel where
  network : Option NetworkData
  weights : Option (List (List ℚ))
  bias : Option (List ℚ)
  classifier : Option Unit
deriving Repr

/-- A value of `self.models[name]`: either the dict built by
`_create_mock_model` (whose `is_mock` key is `True`; it also carries
unseeded `np.random.randn` weights and biases, which no code path ever
reads and which are therefore not modelled) or a raw `loadmat` dict
(which has no `is_mock` key). -/
inductive Handle where
  | mock (classes : List String) (input_shape : Nat × Nat × Nat)
  | real (m : MatModel)
deriving Repr

/-- `model.get("is_mock", False)`. -/
def Handle.is_mock : Handle → Bool
  | .mock _ _ => true
  | .real _ => false

/-- What the filesystem holds at a model's artifact path: no file at all,
a file `scipy.io.loadmat` raises on, or a loadable `.mat` dict. -/
inductive FileContent where
  | missing
  | corrupt
  | mat (m : MatModel)

/-- The numpy/scipy environment a `MATLABModelLoader` runs against. -/
structure NpEnv where
  /-- `np.exp`, pointwise. -/
  exp : ℚ → ℚ
  /-- The Dirichlet sample `np.random.dirichlet(np.ones(n) * 2)` drawn
  right after `np.random.seed(42)`, as a function of `n` alone (the seed
  call makes the draw independent of all previous generator state). -/
  rng : Nat → List ℚ
  /-- Filesystem content at `settings.MODELS_DIR / file`, keyed by file
  name. -/
  fs : String → FileContent

/-- `exp` is strictly positive — true of `np.exp` on every float input. -/
def ExpPos (env : NpEnv) : Prop := ∀ q : ℚ, 0 < env.exp q

/-- A vector on the probability simplex: what a Dirichlet draw returns. -/
def IsSimplex (v : List ℚ) : Prop := (∀ x ∈ v, 0 ≤ x) ∧ v.sum = 1

/-- The environment's Dirichlet sampler really samples the simplex over
`n` categories, for every positive `n`. -/
def RngDirichlet (env : NpEnv) : Prop :=
  ∀ n : Nat, 0 < n → (env.rng n).length = n ∧ IsSimplex (env.rng n)

/-- Mutable state of a `MATLABModelLoader` instance, plus an
instrumentation counter `reads` counting `scipy.io.loadmat` invocations
(the "load-count counter" the spec's idempotence property refers to). -/
structure LoaderState where
  /-- `self.models`, insertion at the head shadows older entries like a
  dict assignment. -/
  models : List (String × Handle)
  /-- `self.metadata.get("version", "1.0.0")` — the only metadata field
  `predict` reads.  `load_metadata` falls back to the default metadata,
  whose version is `"1.0.0"`. -/
  version : String
  /-- Number of `scipy.io.loadmat` calls performed so far. -/
  reads : Nat

/-- A fresh loader (no model cached, default metadata, no disk read). -/
def initState : LoaderState :=
  { models := [], version := "1.0.0", reads := 0 }

/-- `self.models[model_name] = h`. -/
def LoaderState.store (st : LoaderState) (name : String) (h : Handle) :
    LoaderState :=
  { st with models := (name, h) :: st.models }

/-! ## Numeric helpers (numpy operations used by the loader) -/

/-- `np.max` on a nonempty 1-D array (callers guard emptiness). -/
def maxList : List ℚ → ℚ
  | [] => 0
  | x :: xs => xs.foldl max x

/-- Scan for `argmax`: `best` is the index of the running maximum `bv`,
`i` the index of the next element to inspect.  A strictly larger element
replaces the running maximum, so ties keep the earliest index. -/
def argmaxAux (best : Nat) (bv : ℚ) (i : Nat) : List ℚ → Nat
  | [] => best
  | x :: xs => if bv < x then argmaxAux i x (i + 1) xs else argmaxAux best bv (i + 1) xs

/-- Index of the first maximal element — `np.argmax` on a 1-D array
(callers guard emptiness, as numpy raises `ValueError` there). -/
def argmax : List ℚ → Nat
  | [] => 0
  | x :: xs => argmaxAux 0 x 1 xs

/-- Number of columns of a 2-D array modelled row-major (`loadmat`
matrices are rectangular, so the first row's length is the shape). -/
def cols (w : List (List ℚ)) : Nat := (w.headD []).length

/-- `np.dot(v, w)` for a vector `v` of length `w.length` against a
rectangular matrix `w` (row-major): entry `j` is `Σ i, v i * w i j`. -/
def dotMat (v : List ℚ) (w : List (List ℚ)) : List ℚ :=
  (List.range (cols w)).map fun j =>
    (List.zipWith (fun x row => x * row.getD j 0) v w).sum

/-- Componentwise vector addition (callers guard equal lengths, as numpy
broadcasting would raise otherwise). -/
def vecAdd (a b : List ℚ) : List ℚ := List.zipWith (· + ·) a b

/-- The intermediate `exp_x = np.exp(x - np.max(x))` of
`MATLABModelLoader._softmax`. -/
def expVec (env : NpEnv) (x : List ℚ) : List ℚ :=
  x.map fun t => env.exp (t - maxList x)

/-- `MATLABModelLoader._softmax`: `exp_x / np.sum(exp_x)`. -/
def softmax (env : NpEnv) (x : List ℚ) : List ℚ :=
  (expVec env x).map fun t => t / (expVec env x).sum

/-! ## Tensors and image flattening -/

/-- An RGB pixel (`float` triple after preprocessing). -/
abbrev Px : Type := ℚ × ℚ × ℚ

/-- A 4-D `(batch, height, width, 3)` array: list of planes of rows of
RGB pixels. -/
abbrev Tensor : Type := List (List (List Px))

/-- `image.flatten()` on a `(batch, h, w, 3)` array: row-major scan,
each pixel contributing its three channel values in order. -/
def flattenT (t : Tensor) : List ℚ :=
  t.flatMap fun plane =>
    plane.flatMap fun row =>
      row.flatMap fun p => [p.1, p.2.1, p.2.2]

/-! ## Registry / loader (`load_model`, `_create_mock_model`) -/

/-- `MATLABModelLoader._create_mock_model`: a mock dict carrying the
config's class list and input shape, flagged `is_mock = True`. -/
def create_mock_model (cfg : ModelCfg) : Handle :=
  Handle.mock cfg.classes cfg.input_shape

/-- `MATLABModelLoader.load_model`.  Unknown name: log and return
`False`.  Missing artifact: install a mock handle, return `True` (no
`loadmat` call).  `loadmat` failure: caught by the `except` clause, which
installs a mock handle and returns `True`.  Successful `loadmat`: cache
the dict as a real handle, return `True`.  The `reads` counter increments
exactly when `scipy.io.loadmat` runs. -/
def load_model (env : NpEnv) (st : LoaderState) (name : String) :
    Bool × LoaderState :=
  match lookupConfig name with
  | none => (false, st)
  | some cfg =>
    match env.fs cfg.file with
    | .missing => (true, st.store name (create_mock_model cfg))
    | .corrupt =>
        (true, { st with reads := st.reads + 1 }.store name (create_mock_model cfg))
    | .mat m =>
        (true, { st with reads := st.reads + 1 }.store name (Handle.real m))

/-! ## Inference (`_mock_prediction`, `_matlab_inference`, `predict`) -/

/-- `MATLABModelLoader._mock_prediction`: looks up `MODEL_CONFIG[name]`
(a `KeyError` for unregistered names), executes `np.random.seed(42)` and
draws one Dirichlet sample over `len(config["classes"])` categories.  The
`image` argument is accepted but never read — exactly as in the source. -/
def mock_prediction (env : NpEnv) (name : String) (_image : Tensor) :
    Except Err (List ℚ) :=
  match lookupConfig name with
  | none => .error .keyError
  | some cfg => .ok (env.rng cfg.classes.length)

/-- One iteration of the layer loop in
`_forward_pass_matlab_network`: layers with both `weights` and `bias`
apply `np.dot(x, W) + b` and an optional activation; other layers leave
`x` unchanged.  A shape mismatch makes `np.dot`/broadcasting raise; that
exception is caught by `_matlab_inference`'s handler, whose fallback
`_mock_prediction(len(config["classes"]), image)` indexes `MODEL_CONFIG`
with an `int` and therefore raises `KeyError` — the error that actually
escapes. -/
def applyLayer (env : NpEnv) (x : List ℚ) (layer : NetLayer) :
    Except Err (List ℚ) :=
  match layer.weights, layer.bias with
  | some w, some b =>
    if x.length = w.length ∧ cols w = b.length then
      let y := vecAdd (dotMat x w) b
      .ok (match layer.activation with
        | some "relu" => y.map fun t => max 0 t
        | some "sigmoid" => y.map fun t => 1 / (1 + env.exp (-t))
        | _ => y)
    else .error .keyError
  | _, _ => .ok x

/-- `MATLABModelLoader._forward_pass_matlab_network`: flatten the image,
fold the layer loop when the network dict has a `layers` key, then apply
softmax.  An empty final vector would make `np.max` raise inside
`_softmax`; via `_matlab_inference`'s handler that again surfaces as
`KeyError` (see `applyLayer`). -/
def forward_pass (env : NpEnv) (net : NetworkData) (image : Tensor) :
    Except Err (List ℚ) :=
  match net.layers with
  | none =>
    if flattenT image = [] then .error .keyError
    else .ok (softmax env (flattenT image))
  | some layers =>
    match layers.foldlM (applyLayer env) (flattenT image) with
    | .error e => .error e
    | .ok x => if x = [] then .error .keyError else .ok (softmax env x)

/-- `MATLABModelLoader._classify_with_matlab_model`: inspects the
classifier dict but unconditionally returns the placeholder vector
`np.array([0.7, 0.2, 0.1])`. -/
def classify_with_matlab_model (_m : MatModel) (_image : Tensor) : List ℚ :=
  [7/10, 2/10, 1/10]

/-- `MATLABModelLoader._matlab_inference`: dispatch on the dict's keys in
source order (`network`, then `weights` and `bias`, then `classifier`).
The final `else` calls `_mock_prediction(config["classes"], image)`,
which raises `TypeError` (a list is unhashable); the `except` handler's
own fallback `_mock_prediction(len(config["classes"]), image)` raises
`KeyError`, which propagates.  Every in-branch exception funnels through
the same handler, so each failure surfaces as `KeyError`. -/
def matlab_inference (env : NpEnv) (m : MatModel) (image : Tensor)
    (_cfg : ModelCfg) : Except Err (List ℚ) :=
  match m.network with
  | some net => forward_pass env net image
  | none =>
    match m.weights, m.bias with
    | some w, some b =>
      -- `np.dot(flattened_image[:w.rows], w)` needs the slice to have
      -- exactly `w.rows` entries, `+ bias` needs `bias` to span the
      -- columns, and `_softmax` needs a nonempty vector; otherwise the
      -- raised exception surfaces as `KeyError` (see `applyLayer`).
      if w.length ≤ (flattenT image).length ∧ cols w = b.length ∧ 0 < cols w then
        .ok (softmax env (vecAdd (dotMat ((flattenT image).take w.length) w) b))
      else .error .keyError
    | _, _ =>
      match m.classifier with
      | some _ => .ok (classify_with_matlab_model m image)
      | none => .error .keyError

/-- The result dict built at the end of `MATLABModelLoader.predict`. -/
structure PredResult where
  prediction : String
  confidence : ℚ
  class_probabilities : List (String × ℚ)
  model_name : String
  model_version : String
  threshold_met : Bool
deriving DecidableEq, Repr

/-- The score vector produced inside `predict`: the `is_mock` branch
calls `_mock_prediction`, the other branch `_matlab_inference`. -/
def compute_scores (env : NpEnv) (h : Handle) (name : String)
    (image : Tensor) (cfg : ModelCfg) : Except Err (List ℚ) :=
  if h.is_mock then mock_prediction env name image
  else
    match h with
    | .mock _ _ => mock_prediction env name image
    | .real m => matlab_inference env m image cfg

/-- The result-construction tail of `predict`.  All prediction paths
return 1-D arrays, so `confidence_scores = predictions`.  `np.argmax`
raises `ValueError` on an empty vector; `class_names[idx]` raises
`IndexError` when the argmax lands beyond the class list; the dict
comprehension `{class_names[i]: scores[i] for i in range(len(classes))}`
raises `IndexError` when the scores run out before the class list does,
and otherwise pairs the class list with the scores in order (silently
ignoring surplus scores). -/
def build_result (st : LoaderState) (name : String) (cfg : ModelCfg)
    (scores : List ℚ) : Except Err PredResult :=
  if scores = [] then .error .valueError
  else
    match cfg.classes.get? (argmax scores) with
    | none => .error .indexError
    | some cls =>
      if cfg.classes.length ≤ scores.length then
        .ok { prediction := cls
              confidence := scores.getD (argmax scores) 0
              class_probabilities := cfg.classes.zip scores
              model_name := name
              model_version := st.version
              threshold_met := decide (CONFIDENCE_THRESHOLD ≤ scores.getD (argmax scores) 0) }
      else .error .indexError

/-- `predict` after the model handle is available: read
`MODEL_CONFIG[model_name]`, compute the score vector, build the result.
The loader state is returned unchanged alongside the result. -/
def predict_with (env : NpEnv) (st : LoaderState) (h : Handle)
    (name : String) (image : Tensor) : Except Err (PredResult × LoaderState) :=
  match lookupConfig name with
  | none => .error .keyError
  | some cfg =>
    match compute_scores env h name image cfg with
    | .error e => .error e
    | .ok scores =>
      match build_result st name cfg scores with
      | .error e => .error e
      | .ok r => .ok (r, st)

/-- `MATLABModelLoader.predict`: lazily load the model when absent from
`self.models`, raising `ValueError("Failed to load model: ...")` when
`load_model` returns `False`; then run inference and build the result. -/
def predict (env : NpEnv) (st : LoaderState) (image : Tensor)
    (name : String) : Except Err (PredResult × LoaderState) :=
  match st.models.lookup name with
  | some h => predict_with env st h name image
  | none =>
    match load_model env st name with
    | (true, st') =>
      match st'.models.lookup name with
      | some h => predict_with env st' h name image
      | none => .error .keyError
    | (false, _) => .error .valueError

/-! ## Image preprocessing (`preprocess_image`) -/

/-- A decoded upload as `np.array(image)` sees it: a 2-D single-channel
array, a 3-channel RGB array, or a 4-channel RGBA array.  (Arrays with
other channel counts fall through every branch of the source unchanged
and are outside the claims.)  Pixel components of a decoded image are
`uint8` values, modelled as rationals in `[0, 255]`. -/
inductive RawImage where
  | gray (px : List (List ℚ))
  | rgb (px : List (List Px))
  | rgba (px : List (List (ℚ × ℚ × ℚ × ℚ)))

/-- The channel-normalisation block of `preprocess_image`:
3-channel input passes through, `cv2.COLOR_RGBA2RGB` drops the alpha
channel, `cv2.COLOR_GRAY2RGB` replicates the single channel three
times. -/
def ensure_rgb : RawImage → List (List Px)
  | .rgb px => px
  | .rgba px => px.map fun row => row.map fun p => (p.1, p.2.1, p.2.2.1)
  | .gray px => px.map fun row => row.map fun g => (g, g, g)

/-- `cv2.resize(image, target_size)` modelled as deterministic
nearest-neighbour sampling to an `h × w` grid (the spec fixes only that
resizing is deterministic and hits the configured size; both configured
dimensions are 224).  Out-of-grid reads, possible only for empty input,
default to black. -/
def resizeNN (h w : Nat) (m : List (List Px)) : List (List Px) :=
  (List.range h).map fun i =>
    (List.range w).map fun j =>
      (m.getD (i * m.length / h) []).getD (j * (m.headD []).length / w) (0, 0, 0)

/-- The normalisation block of `preprocess_image`, applied per channel:
`"normalize_rgb"` divides by 255, `"standardize"` maps through
`(x - 127.5) / 127.5`, any other mode string leaves values untouched. -/
def scaleChannel (mode : String) (c : ℚ) : ℚ :=
  if mode = "normalize_rgb" then c / 255
  else if mode = "standardize" then (c - 255/2) / (255/2)
  else c

/-- `scaleChannel` on all three channels of a pixel. -/
def scalePx (mode : String) (p : Px) : Px :=
  (scaleChannel mode p.1, scaleChannel mode p.2.1, scaleChannel mode p.2.2)

/-- `MATLABModelLoader.preprocess_image`: look up the model's config
(`KeyError` for unregistered names, logged and re-raised), normalise the
channels, resize to the configured `(height, width)`, apply the
configured normalisation, and prepend the batch dimension
(`np.expand_dims(image, axis=0)`). -/
def preprocess_image (img : RawImage) (name : String) : Except Err Tensor :=
  match lookupConfig name with
  | none => .error .keyError
  | some cfg =>
    let resized := resizeNN cfg.input_shape.1 cfg.input_shape.2.1 (ensure_rgb img)
    .ok [resized.map fun row => row.map (scalePx cfg.preprocessing)]

/-- All pixel components of a decoded image are `uint8` values. -/
def RawInRange : RawImage → Prop
  | .gray px => ∀ row ∈ px, ∀ g ∈ row, 0 ≤ g ∧ g ≤ 255
  | .rgb px => ∀ row ∈ px, ∀ p ∈ row,
      (0 ≤ p.1 ∧ p.1 ≤ 255) ∧ (0 ≤ p.2.1 ∧ p.2.1 ≤ 255) ∧ (0 ≤ p.2.2 ∧ p.2.2 ≤ 255)
  | .rgba px => ∀ row ∈ px, ∀ p ∈ row,
      (0 ≤ p.1 ∧ p.1 ≤ 255) ∧ (0 ≤ p.2.1 ∧ p.2.1 ≤ 255) ∧
      (0 ≤ p.2.2.1 ∧ p.2.2.1 ≤ 255) ∧ (0 ≤ p.2.2.2 ∧ p.2.2.2 ≤ 255)

/-! ## Crop facade helpers (`crop_detection.py`) -/

/-- `_determine_health_status`: fixed label → status table with an
`"unknown"` default. -/
def determine_health_status (prediction : String) : String :=
  if prediction = "healthy" then "excellent"
  else if prediction = "nutrient_deficiency" then "moderate"
  else if prediction = "diseased" then "poor"
  else if prediction = "pest_damage" then "critical"
  else "unknown"

/-- `_calculate_severity`: reads `confidence` and `prediction` from the
prediction-result dict; `"healthy"` short-circuits to `"none"`, otherwise
the confidence is bucketed at 0.8 and 0.6. -/
def calculate_severity (r : PredResult) : String :=
  if r.prediction = "healthy" then "none"
  else if 8/10 ≤ r.confidence then "high"
  else if 6/10 ≤ r.confidence then "moderate"
  else "low"

/-- The image features `_assess_image_quality` and
`_generate_crop_recommendations` read (`features.get(..., 0)`). -/
structure ImageFeatures where
  sharpness : ℚ
  contrast : ℚ

/-- `_assess_image_quality`: sharpness/contrast buckets. -/
def assess_image_quality (f : ImageFeatures) : String :=
  if 100 < f.sharpness ∧ 3/10 < f.contrast then "excellent"
  else if 50 < f.sharpness ∧ 2/10 < f.contrast then "good"
  else if 20 < f.sharpness ∧ 1/10 < f.contrast then "fair"
  else "poor"

/-- The static per-label recommendation block of
`_generate_crop_recommendations`. -/
def label_recommendations (prediction : String) : List String :=
  if prediction = "healthy" then
    [ "Continue current crop management practices",
      "Monitor regularly for early detection of issues",
      "Maintain optimal irrigation and nutrition schedule" ]
  else if prediction = "diseased" then
    [ "Identify specific disease through detailed examination",
      "Apply appropriate fungicide or bactericide treatment",
      "Improve air circulation and reduce humidity",
      "Remove and destroy infected plant material",
      "Consider resistant crop varieties for future planting" ]
  else if prediction = "nutrient_deficiency" then
    [ "Conduct soil nutrient analysis",
      "Apply balanced fertilizer based on soil test results",
      "Check soil pH levels and adjust if necessary",
      "Consider foliar feeding for quick nutrient uptake",
      "Improve soil organic matter content" ]
  else if prediction = "pest_damage" then
    [ "Identify specific pest species causing damage",
      "Apply targeted pest control measures",
      "Use integrated pest management (IPM) strategies",
      "Monitor pest population levels regularly",
      "Consider biological control agents" ]
  else []

/-- `_generate_crop_recommendations`: static per-label block, a
low-confidence extension below the global threshold, and an image-quality
extension for `"fair"`/`"poor"` images. -/
def generate_crop_recommendations (prediction : String) (confidence : ℚ)
    (features : ImageFeatures) : List String :=
  let recs := label_recommendations prediction
  let recs := if confidence < CONFIDENCE_THRESHOLD then
      recs ++ ["Consider taking additional photos from different angles for better analysis"]
    else recs
  let q := assess_image_quality features
  if q = "fair" ∨ q = "poor" then
    recs ++
      [ "Retake photo with better lighting conditions",
        "Ensure image is sharp and well-focused",
        "Take photo during optimal lighting (avoid shadows)" ]
  else recs

/-- `AIModelManager._assess_severity` (`backend/models/ai_models.py`):
same shape as the facade table but capitalised labels and strict
comparisons. -/
def assess_severity (status : String) (confidence : ℚ) : String :=
  if status = "Healthy" then "None"
  else if 8/10 < confidence then "High"
  else if 6/10 < confidence then "Medium"
  else "Low"

/-! ## Basic lemmas about the configuration and numeric helpers -/

lemma lookupConfig_mem {name : String} {cfg : ModelCfg}
    (h : lookupConfig name = some cfg) : (name, cfg) ∈ MODEL_CONFIG := by
  unfold lookupConfig at h
  cases hfind : MODEL_CONFIG.find? (fun p => p.1 = name) with
  | none => rw [hfind] at h; simp at h
  | some p =>
    rw [hfind] at h
    simp only [Option.map_some', Option.some.injEq] at h
    have hmem := List.mem_of_find?_eq_some hfind
    have hname := List.find?_some hfind
    simp only [decide_eq_true_eq] at hname
    subst h; rw [← hname]
    simpa using hmem

lemma cfg_props {name : String} {cfg : ModelCfg}
    (h : lookupConfig name = some cfg) :
    0 < cfg.classes.length ∧ cfg.classes.Nodup ∧
      cfg.preprocessing = "normalize_rgb" ∧ cfg.input_shape = (224, 224, 3) := by
  have hmem := lookupConfig_mem h
  have : ∀ p ∈ MODEL_CONFIG,
      0 < p.2.classes.length ∧ p.2.classes.Nodup ∧
        p.2.preprocessing = "normalize_rgb" ∧ p.2.input_shape = (224, 224, 3) := by
    decide
  exact this _ hmem

lemma argmaxAux_lt (xs : List ℚ) : ∀ (best i : Nat) (bv : ℚ), best < i →
    argmaxAux best bv i xs < i + xs.length := by
  induction xs with
  | nil =>
    intro best i bv h
    simpa [argmaxAux] using h
  | cons x xs ih =>
    intro best i bv h
    simp only [argmaxAux, List.length_cons]
    by_cases hc : bv < x
    · simp only [hc, if_true]
      have := ih i (i + 1) x (Nat.lt_succ_self i)
      omega
    · simp only [hc, if_false]
      have := ih best (i + 1) bv (Nat.lt_succ_of_lt h)
      omega

lemma argmax_lt_length {l : List ℚ} (h : l ≠ []) : argmax l < l.length := by
  cases l with
  | nil => exact absurd rfl h
  | cons x xs =>
    have := argmaxAux_lt xs 0 1 x Nat.one_pos
    simp only [argmax, List.length_cons]
    omega

lemma simplex_mem_bounds {v : List ℚ} (hv : IsSimplex v) :
    ∀ x ∈ v, 0 ≤ x ∧ x ≤ 1 := by
  intro x hx
  refine ⟨hv.1 x hx, ?_⟩
  have := List.single_le_sum hv.1 x hx
  simpa [hv.2] using this

lemma sum_take_le {v : List ℚ} (k : Nat) (hpos : ∀ x ∈ v, 0 ≤ x) :
    (v.take k).sum ≤ v.sum := by
  have hsplit : v = v.take k ++ v.drop k := (List.take_append_drop k v).symm
  have hdrop : 0 ≤ (v.drop k).sum := by
    apply List.sum_nonneg
    intro x hx
    exact hpos x (List.mem_of_mem_drop hx)
  calc (v.take k).sum ≤ (v.take k).sum + (v.drop k).sum := by linarith
    _ = v.sum := by rw [← List.sum_append, ← hsplit]

lemma map_snd_zip_eq_take {α β : Type} (l₁ : List α) (l₂ : List β)
    (h : l₁.length ≤ l₂.length) :
    (l₁.zip l₂).map Prod.snd = l₂.take l₁.length := by
  induction l₁ generalizing l₂ with
  | nil => simp
  | cons a l₁ ih =>
    cases l₂ with
    | nil => simp at h
    | cons b l₂ =>
      simp only [List.zip_cons_cons, List.map_cons, List.length_cons, List.take_succ_cons,
        List.cons.injEq, true_and]
      exact ih l₂ (by simpa using h)

/-! ## Softmax lemmas -/

lemma softmax_length (env : NpEnv) (x : List ℚ) :
    (softmax env x).length = x.length := by
  simp [softmax, expVec]

lemma map_div_sum (l : List ℚ) (s : ℚ) :
    (l.map fun t => t / s).sum = l.sum / s := by
  induction l with
  | nil => simp
  | cons t ts ih => simp [ih, add_div]

lemma expVec_pos {env : NpEnv} (hexp : ExpPos env) (x : List ℚ) :
    ∀ t ∈ expVec env x, 0 < t := by
  intro t ht
  obtain ⟨s, _, rfl⟩ := List.mem_map.mp ht
  exact hexp _

lemma expVec_sum_pos {env : NpEnv} (hexp : ExpPos env) {x : List ℚ}
    (hx : x ≠ []) : 0 < (expVec env x).sum := by
  apply List.sum_pos _ (expVec_pos hexp x)
  simpa [expVec] using hx

lemma softmax_isSimplex {env : NpEnv} (hexp : ExpPos env) {x : List ℚ}
    (hx : x ≠ []) : IsSimplex (softmax env x) := by
  have hsum := expVec_sum_pos hexp hx
  constructor
  · intro p hp
    obtain ⟨t, ht, rfl⟩ := List.mem_map.mp hp
    exact div_nonneg (le_of_lt (expVec_pos hexp x t ht)) (le_of_lt hsum)
  · rw [softmax, map_div_sum, div_self (ne_of_gt hsum)]

/-! ## Inference-path lemmas -/

lemma forward_pass_ok_simplex {env : NpEnv} (hexp : ExpPos env)
    {net : NetworkData} {img : Tensor} {v : List ℚ}
    (h : forward_pass env net img = .ok v) : IsSimplex v := by
  unfold forward_pass at h
  split at h
  · split at h
    · simp at h
    · simp only [Except.ok.injEq] at h
      subst h
      apply softmax_isSimplex hexp
      assumption
  · split at h
    · simp at h
    · split at h
      · simp at h
      · simp only [Except.ok.injEq] at h
        subst h
        apply softmax_isSimplex hexp
        assumption

lemma vecAdd_length (a b : List ℚ) :
    (vecAdd a b).length = min a.length b.length := by
  simp [vecAdd]

lemma dotMat_length (v : List ℚ) (w : List (List ℚ)) :
    (dotMat v w).length = cols w := by
  simp [dotMat]

lemma classifier_simplex : IsSimplex [7/10, 2/10, (1 : ℚ)/10] := by
  constructor
  · intro x hx
    simp at hx
    rcases hx with rfl | rfl | rfl <;> norm_num
  · norm_num

lemma matlab_inference_ok_simplex {env : NpEnv} (hexp : ExpPos env)
    {m : MatModel} {img : Tensor} {cfg : ModelCfg} {v : List ℚ}
    (h : matlab_inference env m img cfg = .ok v) : IsSimplex v := by
  unfold matlab_inference at h
  split at h
  · exact forward_pass_ok_simplex hexp h
  · split at h
    · split at h
      · simp only [Except.ok.injEq] at h
        subst h
        apply softmax_isSimplex hexp
        rename_i hg
        intro hnil
        have hlen := congrArg List.length hnil
        rw [vecAdd_length, dotMat_length] at hlen
        simp only [List.length_nil] at hlen
        omega
      · simp at h
    · split at h
      · simp only [classify_with_matlab_model, Except.ok.injEq] at h
        subst h
        exact classifier_simplex
      · simp at h

lemma compute_scores_mock {env : NpEnv} (hd : Handle) {name : String}
    {image : Tensor} {cfg : ModelCfg} (hm : hd.is_mock = true)
    (hcfg : lookupConfig name = some cfg) :
    compute_scores env hd name image cfg = .ok (env.rng cfg.classes.length) := by
  unfold compute_scores mock_prediction
  rw [hm, if_pos rfl, hcfg]

lemma compute_scores_real {env : NpEnv} {m : MatModel} {name : String}
    {image : Tensor} {cfg : ModelCfg} :
    compute_scores env (Handle.real m) name image cfg =
      matlab_inference env m image cfg := by
  unfold compute_scores
  rfl

lemma compute_scores_ok_simplex {env : NpEnv} {hd : Handle} {name : String}
    {image : Tensor} {cfg : ModelCfg} {v : List ℚ}
    (hexp : ExpPos env) (hrng : RngDirichlet env)
    (hcfg : lookupConfig name = some cfg)
    (h : compute_scores env hd name image cfg = .ok v) : IsSimplex v := by
  cases hd with
  | mock cl sh =>
    rw [compute_scores_mock (Handle.mock cl sh) rfl hcfg] at h
    simp only [Except.ok.injEq] at h
    subst h
    exact (hrng _ (cfg_props hcfg).1).2
  | real m =>
    rw [compute_scores_real] at h
    exact matlab_inference_ok_simplex hexp h

lemma build_result_ok_inv {st : LoaderState} {name : String} {cfg : ModelCfg}
    {scores : List ℚ} {r : PredResult}
    (h : build_result st name cfg scores = .ok r) :
    scores ≠ [] ∧ cfg.classes.length ≤ scores.length ∧
      r.class_probabilities = cfg.classes.zip scores ∧
      r.confidence = scores.getD (argmax scores) 0 ∧
      r.threshold_met = decide (CONFIDENCE_THRESHOLD ≤ r.confidence) ∧
      r.model_name = name ∧ r.model_version = st.version ∧
      cfg.classes.get? (argmax scores) = some r.prediction := by
  unfold build_result at h
  split at h
  · simp at h
  · rename_i hne
    split at h
    · simp at h
    · rename_i cls hget
      split at h
      · rename_i hlen
        simp only [Except.ok.injEq] at h
        subst h
        exact ⟨hne, hlen, rfl, rfl, rfl, rfl, rfl, hget⟩
      · simp at h

lemma predict_with_ok_inv {env : NpEnv} {st st₂ : LoaderState} {hd : Handle}
    {name : String} {image : Tensor} {r : PredResult}
    (h : predict_with env st hd name image = .ok (r, st₂)) :
    st₂ = st ∧ ∃ cfg scores, lookupConfig name = some cfg ∧
      compute_scores env hd name image cfg = .ok scores ∧
      build_result st name cfg scores = .ok r := by
  unfold predict_with at h
  split at h
  · simp at h
  · rename_i cfg hcfg
    split at h
    · simp at h
    · rename_i scores hsc
      split at h
      · simp at h
      · rename_i r' hbr
        simp only [Except.ok.injEq, Prod.mk.injEq] at h
        obtain ⟨rfl, rfl⟩ := h
        exact ⟨rfl, cfg, scores, hcfg, hsc, hbr⟩

lemma predict_ok_inv {env : NpEnv} {st st₂ : LoaderState} {name : String}
    {image : Tensor} {r : PredResult}
    (h : predict env st image name = .ok (r, st₂)) :
    ∃ hd, st₂.models.lookup name = some hd ∧ ∃ cfg scores,
      lookupConfig name = some cfg ∧
      compute_scores env hd name image cfg = .ok scores ∧
      build_result st₂ name cfg scores = .ok r := by
  unfold predict at h
  split at h
  · rename_i hd hl
    obtain ⟨rfl, cfg, scores, hcfg, hsc, hbr⟩ := predict_with_ok_inv h
    exact ⟨hd, hl, cfg, scores, hcfg, hsc, hbr⟩
  · rename_i hl
    split at h
    · rename_i st' hload
      split at h
      · rename_i hd hl2
        obtain ⟨rfl, cfg, scores, hcfg, hsc, hbr⟩ := predict_with_ok_inv h
        exact ⟨hd, hl2, cfg, scores, hcfg, hsc, hbr⟩
      · simp at h
    · simp at h

/-! ## Concrete environments for witnesses and counterexamples -/

/-- A degenerate point of the `n`-simplex: all mass on the first class. -/
def pointMass (n : Nat) : List ℚ := 1 :: List.replicate (n - 1) 0

lemma pointMass_length {n : Nat} (hn : 0 < n) : (pointMass n).length = n := by
  simp [pointMass]
  omega

lemma pointMass_simplex (n : Nat) : IsSimplex (pointMass n) := by
  constructor
  · intro x hx
    simp only [pointMass, List.mem_cons] at hx
    rcases hx with rfl | hx
    · norm_num
    · rw [List.eq_of_mem_replicate hx]
  · simp [pointMass]

/-- A fixed concrete numpy environment: `exp` is the constant 1 (positive,
like the real exponential), the seeded Dirichlet draw is the point mass on
the first class, and no artifact file exists. -/
def witEnv : NpEnv :=
  { exp := fun _ => 1
    rng := fun n => pointMass n
    fs := fun _ => .missing }

lemma witEnv_exp : ExpPos witEnv := fun _ => by norm_num [witEnv]

lemma witEnv_rng : RngDirichlet witEnv :=
  fun n hn => ⟨pointMass_length hn, pointMass_simplex n⟩

/-- A one-pixel black image, already shaped as a `(1, 1, 1, 3)` tensor. -/
def imgW : Tensor := [[[(0, 0, 0)]]]

/-- The crop-health mock handle the loader installs when the artifact is
absent. -/
def stW : LoaderState :=
  { models := [("crop_health",
      Handle.mock ["healthy", "diseased", "nutrient_deficiency", "pest_damage"]
        (224, 224, 3))]
    version := "1.0.0", reads := 0 }

/-- The prediction `witEnv` yields for crop health in mock mode. -/
def resW : PredResult :=
  { prediction := "healthy", confidence := 1
    class_probabilities := [("healthy", 1), ("diseased", 0),
      ("nutrient_deficiency", 0), ("pest_damage", 0)]
    model_name := "crop_health", model_version := "1.0.0", threshold_met := true }

lemma witEnv_predict :
    predict witEnv initState imgW "crop_health" = .ok (resW, stW) := by
  norm_num [predict, load_model, lookupConfig, MODEL_CONFIG, predict_with, compute_scores,
    mock_prediction, build_result, argmax, argmaxAux, LoaderState.store, create_mock_model,
    initState, Handle.is_mock, CONFIDENCE_THRESHOLD, maxList, witEnv, pointMass, imgW, stW, resW]
  rfl

/-! ## C2 — class_probabilities keys are exactly the configured classes -/

/-- C2: for every input on which `predict` returns a result, the keys of
`class_probabilities` are exactly the class labels the model's
configuration declares, in order, each exactly once — whether the handle
was mock or real. -/
theorem C2_class_probability_keys {env : NpEnv} {st st₂ : LoaderState}
    {name : String} {image : Tensor} {r : PredResult}
    (h : predict env st image name = .ok (r, st₂)) :
    ∃ cfg, lookupConfig name = some cfg ∧
      r.class_probabilities.map Prod.fst = cfg.classes ∧ cfg.classes.Nodup := by
  obtain ⟨hd, hl, cfg, scores, hcfg, hsc, hbr⟩ := predict_ok_inv h
  obtain ⟨hne, hlen, hprobs, _⟩ := build_result_ok_inv hbr
  refine ⟨cfg, hcfg, ?_, (cfg_props hcfg).2.1⟩
  rw [hprobs]
  exact List.map_fst_zip _ _ hlen

/-- C2 witness: the mock crop-health prediction of `witEnv` carries
exactly the four configured crop-health labels. -/
theorem C2_witness :
    ∃ cfg, lookupConfig "crop_health" = some cfg ∧
      resW.class_probabilities.map Prod.fst = cfg.classes ∧ cfg.classes.Nodup :=
  C2_class_probability_keys witEnv_predict

/-! ## C4 — threshold flag is confidence ≥ global threshold -/

/-- C4: every result `predict` returns has
`threshold_met = (confidence ≥ CONFIDENCE_THRESHOLD)`, and the threshold
is the single global scalar 0.5 shared by all models. -/
theorem C4_threshold_met {env : NpEnv} {st st₂ : LoaderState} {name : String}
    {image : Tensor} {r : PredResult}
    (h : predict env st image name = .ok (r, st₂)) :
    (r.threshold_met = true ↔ CONFIDENCE_THRESHOLD ≤ r.confidence) ∧
      CONFIDENCE_THRESHOLD = 1/2 := by
  obtain ⟨hd, hl, cfg, scores, hcfg, hsc, hbr⟩ := predict_ok_inv h
  obtain ⟨_, _, _, _, hthr, _⟩ := build_result_ok_inv hbr
  refine ⟨?_, rfl⟩
  rw [hthr]
  exact decide_eq_true_iff

/-- C4 witness: in the concrete mock run the flag is set and the
confidence 1 indeed clears the 0.5 threshold. -/
theorem C4_witness :
    (resW.threshold_met = true ↔ CONFIDENCE_THRESHOLD ≤ resW.confidence) ∧
      CONFIDENCE_THRESHOLD = 1/2 :=
  C4_threshold_met witEnv_predict

/-! ## C1 — normalization of class probabilities -/

/-- A real `loadmat` handle whose `weights`/`bias` branch yields five
scores against crop health's four declared classes. -/
def wideModel : MatModel :=
  { network := none, weights := some [[0, 0, 0, 0, 0]], bias := some [0, 0, 0, 0, 0],
    classifier := none }

/-- A loader that has cached `wideModel` as the real crop-health model. -/
def wideState : LoaderState :=
  { models := [("crop_health", Handle.real wideModel)], version := "1.0.0", reads := 0 }

/-- C1 counterexample: with the real five-output handle `wideModel`, the
zero image yields softmax scores `[1/5, 1/5, 1/5, 1/5, 1/5]` (all logits
are 0 and `np.exp 0 = 1`, so the constant-one `exp` of `witEnv` is exact
here), and `predict` returns a result whose class probabilities sum to
4/5 — farther than 1e-6 from 1.  The claim's normalization guarantee
fails in real mode. -/
theorem C1_cex :
    (predict witEnv wideState imgW "crop_health").map
        (fun p => (p.1.class_probabilities.map Prod.snd).sum) = .ok (4/5) ∧
      ¬ |(4/5 : ℚ) - 1| ≤ 1/1000000 ∧
      (wideState.models.lookup "crop_health").map Handle.is_mock = some false := by
  refine ⟨?_, by norm_num [abs_le], rfl⟩
  norm_num [predict, wideState, predict_with, lookupConfig, MODEL_CONFIG, compute_scores,
    Handle.is_mock, wideModel, matlab_inference, flattenT, imgW, cols, dotMat, vecAdd,
    softmax, expVec, maxList, witEnv, build_result, argmax, argmaxAux,
    CONFIDENCE_THRESHOLD, List.range_succ, List.lookup]
  rw [if_neg (List.cons_ne_nil _ _)]
  norm_num [Except.map]

/-- C1 amended: every class-probability value a returned result carries
lies in `[0, 1]` and the values sum to at most 1; the sum is exactly 1
whenever the serving handle is a mock handle (whose Dirichlet score
vector spans exactly the declared classes).  A real handle with more
scores than classes — the counterexample — is what keeps the sum from
always reaching 1. -/
theorem C1_normalization_amended {env : NpEnv} {st st₂ : LoaderState}
    {name : String} {image : Tensor} {r : PredResult}
    (hexp : ExpPos env) (hrng : RngDirichlet env)
    (h : predict env st image name = .ok (r, st₂)) :
    (∀ p ∈ r.class_probabilities, 0 ≤ p.2 ∧ p.2 ≤ 1) ∧
      (r.class_probabilities.map Prod.snd).sum ≤ 1 ∧
      (∀ hd, st₂.models.lookup name = some hd → hd.is_mock = true →
        (r.class_probabilities.map Prod.snd).sum = 1) := by
  obtain ⟨hd, hl, cfg, scores, hcfg, hsc, hbr⟩ := predict_ok_inv h
  obtain ⟨hne, hlen, hprobs, _⟩ := build_result_ok_inv hbr
  have hsimp : IsSimplex scores := compute_scores_ok_simplex hexp hrng hcfg hsc
  have hvals : r.class_probabilities.map Prod.snd = scores.take cfg.classes.length := by
    rw [hprobs]
    exact map_snd_zip_eq_take _ _ hlen
  refine ⟨?_, ?_, ?_⟩
  · intro p hp
    rw [hprobs] at hp
    have hmem : p.2 ∈ scores := (List.of_mem_zip (by simpa using hp)).2
    exact simplex_mem_bounds hsimp _ hmem
  · rw [hvals]
    calc (scores.take cfg.classes.length).sum ≤ scores.sum :=
        sum_take_le _ hsimp.1
      _ = 1 := hsimp.2
  · intro hd' hl' hm
    rw [hl] at hl'
    injection hl' with he
    subst he
    rw [compute_scores_mock hd hm hcfg] at hsc
    simp only [Except.ok.injEq] at hsc
    obtain rfl : env.rng cfg.classes.length = scores := hsc
    have hk : (env.rng cfg.classes.length).length = cfg.classes.length :=
      (hrng _ (cfg_props hcfg).1).1
    rw [hvals, List.take_of_length_le (le_of_eq hk)]
    exact hsimp.2

/-- C1 witness: the amended statement evaluated on the concrete mock run
of `witEnv`, where the probabilities sum to exactly 1. -/
theorem C1_witness :
    (∀ p ∈ resW.class_probabilities, 0 ≤ p.2 ∧ p.2 ≤ 1) ∧
      (resW.class_probabilities.map Prod.snd).sum ≤ 1 ∧
      (∀ hd, stW.models.lookup "crop_health" = some hd → hd.is_mock = true →
        (resW.class_probabilities.map Prod.snd).sum = 1) :=
  C1_normalization_amended witEnv_exp witEnv_rng witEnv_predict

/-! ## C3 — missing/corrupt artifacts degrade to a mock handle -/

lemma lookup_store (st : LoaderState) (name : String) (h : Handle) :
    (st.store name h).models.lookup name = some h := by
  simp [LoaderState.store, List.lookup]

lemma build_result_ok_of_length {st : LoaderState} {name : String}
    {cfg : ModelCfg} {scores : List ℚ}
    (hlen : scores.length = cfg.classes.length) (hpos : 0 < scores.length) :
    ∃ r, build_result st name cfg scores = .ok r := by
  have hne : scores ≠ [] := List.length_pos.mp hpos
  have hidx : argmax scores < cfg.classes.length := by
    rw [← hlen]
    exact argmax_lt_length hne
  unfold build_result
  rw [if_neg hne]
  cases hget : cfg.classes.get? (argmax scores) with
  | none => exact absurd (List.get?_eq_none.mp hget) (not_le.mpr hidx)
  | some cls =>
    exact ⟨{ prediction := cls
             confidence := scores.getD (argmax scores) 0
             class_probabilities := cfg.classes.zip scores
             model_name := name
             model_version := st.version
             threshold_met :=
               decide (CONFIDENCE_THRESHOLD ≤ scores.getD (argmax scores) 0) },
      if_pos (le_of_eq hlen.symm)⟩

/-- C3: for a registered model whose artifact is missing or unloadable,
`load_model` still reports success (the failure never surfaces), caches a
mock handle flagged `is_mock` that carries exactly the configured class
list, and a subsequent `predict` against that handle returns a fully
populated result: the probability table spans exactly the configured
classes and the predicted label is one of them. -/
theorem C3_mock_fallback {env : NpEnv} {st : LoaderState} {name : String}
    {cfg : ModelCfg} {image : Tensor}
    (hrng : RngDirichlet env) (hcfg : lookupConfig name = some cfg)
    (hfs : env.fs cfg.file = .missing ∨ env.fs cfg.file = .corrupt) :
    (load_model env st name).1 = true ∧
      (load_model env st name).2.models.lookup name =
        some (Handle.mock cfg.classes cfg.input_shape) ∧
      (Handle.mock cfg.classes cfg.input_shape).is_mock = true ∧
      ∃ r, predict env (load_model env st name).2 image name =
          .ok (r, (load_model env st name).2) ∧
        r.class_probabilities.map Prod.fst = cfg.classes ∧
        r.prediction ∈ cfg.classes ∧ r.model_name = name := by
  obtain ⟨st', hlm⟩ : ∃ st' : LoaderState, load_model env st name =
      (true, LoaderState.store st' name (create_mock_model cfg)) := by
    rcases hfs with hfs | hfs
    · exact ⟨st, by simp [load_model, hcfg, hfs]⟩
    · exact ⟨{ st with reads := st.reads + 1 }, by simp [load_model, hcfg, hfs]⟩
  rw [hlm]
  have hlook := lookup_store st' name (create_mock_model cfg)
  refine ⟨rfl, hlook, rfl, ?_⟩
  have hk : 0 < cfg.classes.length := (cfg_props hcfg).1
  have hscore : compute_scores env (create_mock_model cfg) name image cfg =
      .ok (env.rng cfg.classes.length) :=
    compute_scores_mock (create_mock_model cfg) rfl hcfg
  have hlen : (env.rng cfg.classes.length).length = cfg.classes.length :=
    (hrng _ hk).1
  have hex : ∃ r, build_result (LoaderState.store st' name (create_mock_model cfg))
      name cfg (env.rng cfg.classes.length) = .ok r :=
    build_result_ok_of_length hlen (by rw [hlen]; exact hk)
  obtain ⟨r, hbr⟩ := hex
  obtain ⟨hne, hle, hprobs, _, _, hname, _, hget⟩ := build_result_ok_inv hbr
  refine ⟨r, ?_, ?_, ?_, hname⟩
  · unfold predict
    simp only [hlook]
    unfold predict_with
    simp only [hcfg, hscore, hbr]
  · rw [hprobs]
    exact List.map_fst_zip _ _ hle
  · exact List.get?_mem hget

/-- Crop health's `MODEL_CONFIG` entry, spelled out for the witnesses. -/
def cropCfg : ModelCfg :=
  { file := "crop_health_model.mat"
    input_shape := (224, 224, 3)
    classes := ["healthy", "diseased", "nutrient_deficiency", "pest_damage"]
    preprocessing := "normalize_rgb" }

/-- C3 witness: under `witEnv` (no artifact on disk) the crop-health load
succeeds with a mock handle and predicting against it succeeds. -/
theorem C3_witness :
    (load_model witEnv initState "crop_health").1 = true ∧
      (load_model witEnv initState "crop_health").2.models.lookup "crop_health" =
        some (Handle.mock cropCfg.classes cropCfg.input_shape) ∧
      (Handle.mock cropCfg.classes cropCfg.input_shape).is_mock = true ∧
      ∃ r, predict witEnv (load_model witEnv initState "crop_health").2 imgW "crop_health" =
          .ok (r, (load_model witEnv initState "crop_health").2) ∧
        r.class_probabilities.map Prod.fst = cropCfg.classes ∧
        r.prediction ∈ cropCfg.classes ∧ r.model_name = "crop_health" :=
  C3_mock_fallback witEnv_rng rfl (Or.inl rfl)

/-! ## C5 — unknown model names -/

/-- C5 counterexample: for the unregistered name `"not_a_real_model"`,
`predict` fails — but with `ValueError` (from
`raise ValueError(f"Failed to load model: ...")`), not with any
`UnknownModelError`; no such exception class exists anywhere in the code. -/
theorem C5_cex :
    lookupConfig "not_a_real_model" = none ∧
      predict witEnv initState imgW "not_a_real_model" = .error .valueError ∧
      preprocess_image (RawImage.gray [[0]]) "not_a_real_model" = .error .keyError ∧
      Err.valueError ≠ Err.unknownModelError ∧
      Err.keyError ≠ Err.unknownModelError := by
  refine ⟨rfl, rfl, rfl, by decide, by decide⟩

/-- C5 amended: an unregistered model name makes `predict` fail with
`ValueError` and `preprocess_image` fail with `KeyError` (the code has no
`UnknownModelError`); no partial result is produced in either case, and
`load_model` does not raise at all — it returns `False` and leaves the
state untouched. -/
theorem C5_unknown_model_amended {env : NpEnv} {st : LoaderState}
    {name : String} {image : Tensor} {imgR : RawImage}
    (hcfg : lookupConfig name = none) (hl : st.models.lookup name = none) :
    predict env st image name = .error .valueError ∧
      preprocess_image imgR name = .error .keyError ∧
      load_model env st name = (false, st) := by
  have hload : load_model env st name = (false, st) := by
    unfold load_model
    rw [hcfg]
  refine ⟨?_, ?_, hload⟩
  · unfold predict
    rw [hl, hload]
  · unfold preprocess_image
    rw [hcfg]

/-- C5 witness: the amended behaviour at the concrete unregistered name. -/
theorem C5_witness :
    predict witEnv initState imgW "definitely_not_a_model" = .error .valueError ∧
      preprocess_image (RawImage.gray [[0]]) "definitely_not_a_model" = .error .keyError ∧
      load_model witEnv initState "definitely_not_a_model" = (false, initState) :=
  C5_unknown_model_amended rfl rfl

/-! ## C6 — score-vector length mismatches -/

/-- Soil analysis's `MODEL_CONFIG` entry, spelled out for the witnesses. -/
def soilCfg : ModelCfg :=
  { file := "soil_analysis_model.mat"
    input_shape := (224, 224, 3)
    classes := ["clay", "sandy", "loamy", "silt"]
    preprocessing := "normalize_rgb" }

/-- A real handle producing five softmax scores against soil analysis's
four classes (two rows of weights to differ from `wideModel`). -/
def wideModel2 : MatModel :=
  { network := none, weights := some [[0, 0, 0, 0, 0], [0, 0, 0, 0, 0]],
    bias := some [0, 0, 0, 0, 0], classifier := none }

/-- A loader that has cached `wideModel2` as the real soil model. -/
def wideState2 : LoaderState :=
  { models := [("soil_analysis", Handle.real wideModel2)], version := "1.0.0", reads := 0 }

lemma wideState2_predict :
    (matlab_inference witEnv wideModel2 imgW soilCfg =
        .ok [1/5, 1/5, 1/5, 1/5, 1/5]) ∧
      predict witEnv wideState2 imgW "soil_analysis" =
        .ok ({ prediction := "clay", confidence := 1/5
               class_probabilities := [("clay", 1/5), ("sandy", 1/5),
                 ("loamy", 1/5), ("silt", 1/5)]
               model_name := "soil_analysis", model_version := "1.0.0"
               threshold_met := false }, wideState2) := by
  constructor
  · norm_num [matlab_inference, wideModel2, flattenT, imgW, cols, dotMat, vecAdd,
      softmax, expVec, maxList, witEnv, List.range_succ]
  · have hs1 : decide ("crop_health" = "soil_analysis") = false := rfl
    norm_num [predict, wideState2, predict_with, lookupConfig, MODEL_CONFIG,
      compute_scores, Handle.is_mock, wideModel2, matlab_inference, flattenT, imgW,
      cols, dotMat, vecAdd, softmax, expVec, maxList, witEnv, build_result, argmax,
      argmaxAux, CONFIDENCE_THRESHOLD, List.range_succ, List.lookup, List.find?, hs1]
    rw [if_neg (List.cons_ne_nil _ _)]

/-- C6 counterexample: `wideModel2` yields a five-entry score vector for
soil analysis's four classes, yet `predict` raises nothing — it returns a
result whose probability table silently drops the fifth score.  No
`ModelOutputMismatchError` exists, and vectors longer than the class list
are silently truncated. -/
theorem C6_cex :
    matlab_inference witEnv wideModel2 imgW soilCfg =
        .ok [1/5, 1/5, 1/5, 1/5, 1/5] ∧
      (predict witEnv wideState2 imgW "soil_analysis").map
          (fun p => p.1.class_probabilities.map Prod.snd) =
        .ok [1/5, 1/5, 1/5, 1/5] ∧
      predict witEnv wideState2 imgW "soil_analysis" ≠
        .error .modelOutputMismatchError := by
  obtain ⟨hmi, hp⟩ := wideState2_predict
  refine ⟨hmi, ?_, ?_⟩
  · rw [hp]
    rfl
  · rw [hp]
    simp

/-- C6 amended: a raw score vector shorter than the class list makes
`predict` fail with `IndexError` (the dict comprehension runs out of
scores) — there is no `ModelOutputMismatchError` in the code — while a
longer vector is silently truncated whenever the argmax lands inside the
class list, as the counterexample shows. -/
theorem C6_short_scores_amended {env : NpEnv} {st : LoaderState}
    {name : String} {image : Tensor} {m : MatModel} {cfg : ModelCfg}
    {v : List ℚ}
    (hl : st.models.lookup name = some (Handle.real m))
    (hcfg : lookupConfig name = some cfg)
    (hmi : matlab_inference env m image cfg = .ok v)
    (hne : v ≠ []) (hshort : v.length < cfg.classes.length) :
    predict env st image name = .error .indexError := by
  unfold predict
  simp only [hl]
  unfold predict_with
  simp only [hcfg, compute_scores_real, hmi]
  unfold build_result
  rw [if_neg hne]
  cases hget : cfg.classes.get? (argmax v) with
  | none => rfl
  | some cls =>
    have hnot : ¬ cfg.classes.length ≤ v.length := not_le.mpr hshort
    simp [hnot]

/-- A real handle hitting the `classifier` branch, whose placeholder
vector has three entries. -/
def clsModel : MatModel :=
  { network := none, weights := none, bias := none, classifier := some () }

/-- A loader that has cached `clsModel` as the real crop-health model. -/
def stCls : LoaderState :=
  { models := [("crop_health", Handle.real clsModel)], version := "1.0.0", reads := 0 }

/-- C6 witness: the classifier branch's three placeholder scores against
crop health's four classes make `predict` raise `IndexError`. -/
theorem C6_witness :
    predict witEnv stCls imgW "crop_health" = .error .indexError :=
  C6_short_scores_amended rfl rfl rfl (by decide) (by decide)

/-! ## C7 — `load_model` called twice -/

/-- How many `scipy.io.loadmat` calls one `load_model` invocation makes
for a registered model: none when the file is absent, one otherwise. -/
def loadReads : FileContent → Nat
  | .missing => 0
  | .corrupt => 1
  | .mat _ => 1

/-- An environment in which every artifact path holds a loadable `.mat`
file (the three-score classifier dict). -/
def artEnv : NpEnv :=
  { exp := fun _ => 1
    rng := fun n => pointMass n
    fs := fun _ => .mat clsModel }

/-- C7 counterexample: with an artifact on disk, the first `load_model`
performs one `loadmat` read and the second performs another — the read
counter reaches 2, not 1.  `load_model` never consults the cache, so the
second call does re-read the artifact. -/
theorem C7_cex :
    (load_model artEnv initState "crop_health").2.reads = 1 ∧
      (load_model artEnv (load_model artEnv initState "crop_health").2
          "crop_health").2.reads = 2 ∧
      (2 : Nat) ≠ 1 :=
  ⟨rfl, rfl, by decide⟩

/-- C7 amended: both calls succeed and yield behaviourally identical
handles (the cached entry after the second call equals the one after the
first), but `load_model` re-reads the artifact on every call whenever the
file exists — only `predict`'s cache check avoids repeat loads. -/
theorem C7_load_twice_amended {env : NpEnv} {st : LoaderState}
    {name : String} {cfg : ModelCfg} (hcfg : lookupConfig name = some cfg) :
    (load_model env st name).1 = true ∧
      (load_model env (load_model env st name).2 name).1 = true ∧
      (load_model env (load_model env st name).2 name).2.models.lookup name =
        (load_model env st name).2.models.lookup name ∧
      (load_model env (load_model env st name).2 name).2.reads =
        (load_model env st name).2.reads + loadReads (env.fs cfg.file) := by
  unfold load_model
  rw [hcfg]
  cases hfs : env.fs cfg.file <;>
    simp [hfs, LoaderState.store, List.lookup, loadReads]

/-- C7 witness: the amended statement at the concrete artifact-bearing
environment. -/
theorem C7_witness :
    (load_model artEnv initState "crop_health").1 = true ∧
      (load_model artEnv (load_model artEnv initState "crop_health").2
          "crop_health").1 = true ∧
      (load_model artEnv (load_model artEnv initState "crop_health").2
          "crop_health").2.models.lookup "crop_health" =
        (load_model artEnv initState "crop_health").2.models.lookup "crop_health" ∧
      (load_model artEnv (load_model artEnv initState "crop_health").2
          "crop_health").2.reads =
        (load_model artEnv initState "crop_health").2.reads +
          loadReads (artEnv.fs cropCfg.file) :=
  C7_load_twice_amended rfl

/-! ## C8 — preprocessing shape and value ranges -/

/-- The value range a preprocessing mode maps `uint8` channels into:
`[0,1]` for `normalize_rgb`, `[-1,1]` for `standardize`, untouched
`[0,255]` for any other mode string. -/
def ChanRange (mode : String) (c : ℚ) : Prop :=
  if mode = "normalize_rgb" then 0 ≤ c ∧ c ≤ 1
  else if mode = "standardize" then -1 ≤ c ∧ c ≤ 1
  else 0 ≤ c ∧ c ≤ 255

/-- `ChanRange` on all three channels of a pixel. -/
def PxInRange (mode : String) (p : Px) : Prop :=
  ChanRange mode p.1 ∧ ChanRange mode p.2.1 ∧ ChanRange mode p.2.2

/-- A pixel whose three channels are `uint8` values. -/
def Px255 (p : Px) : Prop :=
  (0 ≤ p.1 ∧ p.1 ≤ 255) ∧ (0 ≤ p.2.1 ∧ p.2.1 ≤ 255) ∧ (0 ≤ p.2.2 ∧ p.2.2 ≤ 255)

lemma getD_mem_or {α : Type} (l : List α) (n : Nat) (d : α) :
    l.getD n d ∈ l ∨ l.getD n d = d := by
  rcases lt_or_le n l.length with h | h
  · left
    rw [List.getD_eq_getElem l d h]
    exact List.getElem_mem h
  · right
    exact List.getD_eq_default l d h

lemma ensure_rgb_range {img : RawImage} (h : RawInRange img) :
    ∀ row ∈ ensure_rgb img, ∀ p ∈ row, Px255 p := by
  cases img with
  | gray px =>
    intro row hrow p hp
    simp only [ensure_rgb, List.mem_map] at hrow
    obtain ⟨row0, hrow0, rfl⟩ := hrow
    obtain ⟨g, hg, rfl⟩ := List.mem_map.mp hp
    have := h row0 hrow0 g hg
    exact ⟨this, this, this⟩
  | rgb px =>
    intro row hrow p hp
    exact h row hrow p hp
  | rgba px =>
    intro row hrow p hp
    simp only [ensure_rgb, List.mem_map] at hrow
    obtain ⟨row0, hrow0, rfl⟩ := hrow
    obtain ⟨q, hq, rfl⟩ := List.mem_map.mp hp
    obtain ⟨h1, h2, h3, _⟩ := h row0 hrow0 q hq
    exact ⟨h1, h2, h3⟩

lemma zero_px_255 : Px255 (0, 0, 0) := by
  refine ⟨⟨le_refl 0, ?_⟩, ⟨le_refl 0, ?_⟩, ⟨le_refl 0, ?_⟩⟩ <;> norm_num

lemma resizeNN_range {m : List (List Px)} (hm : ∀ row ∈ m, ∀ p ∈ row, Px255 p)
    (h w : Nat) : ∀ row ∈ resizeNN h w m, ∀ p ∈ row, Px255 p := by
  intro row hrow p hp
  simp only [resizeNN, List.mem_map, List.mem_range] at hrow
  obtain ⟨i, hi, rfl⟩ := hrow
  simp only [List.mem_map, List.mem_range] at hp
  obtain ⟨j, hj, rfl⟩ := hp
  rcases getD_mem_or m (i * m.length / h) [] with hrow0 | hrow0
  · rcases getD_mem_or (m.getD (i * m.length / h) [])
      (j * (m.headD []).length / w) (0, 0, 0) with hp0 | hp0
    · exact hm _ hrow0 _ hp0
    · rw [hp0]
      exact zero_px_255
  · rw [hrow0, List.getD_nil]
    exact zero_px_255

lemma resizeNN_length (h w : Nat) (m : List (List Px)) :
    (resizeNN h w m).length = h := by
  simp [resizeNN]

lemma resizeNN_row_length {h w : Nat} {m : List (List Px)} :
    ∀ row ∈ resizeNN h w m, row.length = w := by
  intro row hrow
  simp only [resizeNN, List.mem_map, List.mem_range] at hrow
  obtain ⟨i, hi, rfl⟩ := hrow
  simp

lemma scaleChannel_range (mode : String) {c : ℚ} (h0 : 0 ≤ c) (h255 : c ≤ 255) :
    ChanRange mode (scaleChannel mode c) := by
  unfold ChanRange scaleChannel
  split_ifs
  · constructor
    · positivity
    · rw [div_le_one (by norm_num : (0:ℚ) < 255)]
      exact h255
  · constructor
    · rw [le_div_iff₀ (by norm_num : (0:ℚ) < 255/2)]
      linarith
    · rw [div_le_one (by norm_num : (0:ℚ) < 255/2)]
      linarith
  · exact ⟨h0, h255⟩

lemma scalePx_range (mode : String) {p : Px} (hp : Px255 p) :
    PxInRange mode (scalePx mode p) := by
  obtain ⟨⟨a0, a1⟩, ⟨b0, b1⟩, ⟨c0, c1⟩⟩ := hp
  exact ⟨scaleChannel_range mode a0 a1, scaleChannel_range mode b0 b1,
    scaleChannel_range mode c0 c1⟩

/-- C8: for every registered model and decodable image (single-channel,
RGB, or RGBA, with `uint8` pixel values), preprocessing succeeds and
yields a `(1, height, width, 3)` tensor — batch dimension prepended,
spatial size from the model's configuration — whose channel values lie in
the range implied by the model's preprocessing mode; single-channel input
is replicated to three channels and four-channel input has its alpha
channel dropped. -/
theorem C8_preprocess_shape_range {img : RawImage} {name : String}
    {cfg : ModelCfg} (hcfg : lookupConfig name = some cfg)
    (hin : RawInRange img) :
    preprocess_image img name =
      .ok [(resizeNN cfg.input_shape.1 cfg.input_shape.2.1
             (ensure_rgb img)).map fun row => row.map (scalePx cfg.preprocessing)] ∧
    (∀ t, preprocess_image img name = .ok t →
      t.length = 1 ∧
      (∀ plane ∈ t, plane.length = cfg.input_shape.1 ∧
        ∀ row ∈ plane, row.length = cfg.input_shape.2.1) ∧
      (∀ plane ∈ t, ∀ row ∈ plane, ∀ p ∈ row, PxInRange cfg.preprocessing p)) ∧
    (∀ px, ensure_rgb (RawImage.gray px) =
      px.map fun row => row.map fun g => (g, g, g)) ∧
    (∀ px, ensure_rgb (RawImage.rgba px) =
      px.map fun row => row.map fun p => (p.1, p.2.1, p.2.2.1)) := by
  have hpre : preprocess_image img name =
      .ok [(resizeNN cfg.input_shape.1 cfg.input_shape.2.1
             (ensure_rgb img)).map fun row => row.map (scalePx cfg.preprocessing)] := by
    unfold preprocess_image
    rw [hcfg]
  refine ⟨hpre, ?_, fun _ => rfl, fun _ => rfl⟩
  intro t ht
  rw [hpre] at ht
  simp only [Except.ok.injEq] at ht
  subst ht
  have hrange := resizeNN_range (ensure_rgb_range hin)
    cfg.input_shape.1 cfg.input_shape.2.1
  refine ⟨rfl, ?_, ?_⟩
  · intro plane hplane
    simp only [List.mem_singleton] at hplane
    subst hplane
    constructor
    · rw [List.length_map, resizeNN_length]
    · intro row hrow
      obtain ⟨row0, hrow0, rfl⟩ := List.mem_map.mp hrow
      rw [List.length_map]
      exact resizeNN_row_length row0 hrow0
  · intro plane hplane row hrow p hp
    simp only [List.mem_singleton] at hplane
    subst hplane
    obtain ⟨row0, hrow0, rfl⟩ := List.mem_map.mp hrow
    obtain ⟨q, hq, rfl⟩ := List.mem_map.mp hp
    exact scalePx_range cfg.preprocessing (hrange row0 hrow0 q hq)

/-- C8 witness: a concrete one-pixel RGBA image through the crop-health
pipeline. -/
theorem C8_witness :
    preprocess_image (RawImage.rgba [[(1, 2, 3, 4)]]) "crop_health" =
      .ok [(resizeNN cropCfg.input_shape.1 cropCfg.input_shape.2.1
            (ensure_rgb (RawImage.rgba [[(1, 2, 3, 4)]]))).map
              fun row => row.map (scalePx cropCfg.preprocessing)] ∧
    (∀ t, preprocess_image (RawImage.rgba [[(1, 2, 3, 4)]]) "crop_health" = .ok t →
      t.length = 1 ∧
      (∀ plane ∈ t, plane.length = cropCfg.input_shape.1 ∧
        ∀ row ∈ plane, row.length = cropCfg.input_shape.2.1) ∧
      (∀ plane ∈ t, ∀ row ∈ plane, ∀ p ∈ row, PxInRange cropCfg.preprocessing p)) ∧
    (∀ px, ensure_rgb (RawImage.gray px) =
      px.map fun row => row.map fun g => (g, g, g)) ∧
    (∀ px, ensure_rgb (RawImage.rgba px) =
      px.map fun row => row.map fun p => (p.1, p.2.1, p.2.2.1)) :=
  C8_preprocess_shape_range rfl
    (by
      norm_num [RawInRange]
      intro a b c d ha hb hc hd
      subst ha hb hc hd
      norm_num)

/-! ## C9 — crop facade severity and recommendations -/

/-- C9: in the crop facade's severity lookup, `"healthy"` always maps to
severity `"none"` and any other label at confidence ≥ 0.8 maps to
`"high"`; in the scenario where `predict` returns `"diseased"` at
confidence 0.92, the severity is `"high"`, the recommendation list is
non-empty and contains both a treatment instruction and the isolation
instruction to remove infected material, and `threshold_met` is true. -/
theorem C9_crop_severity :
    (∀ r : PredResult, r.prediction = "healthy" → calculate_severity r = "none") ∧
    (∀ r : PredResult, r.prediction ≠ "healthy" → 8/10 ≤ r.confidence →
      calculate_severity r = "high") ∧
    (∀ (env : NpEnv) (st st₂ : LoaderState) (image : Tensor) (r : PredResult)
        (feats : ImageFeatures),
      predict env st image "crop_health" = .ok (r, st₂) →
      r.prediction = "diseased" → r.confidence = 92/100 →
      calculate_severity r = "high" ∧
      generate_crop_recommendations r.prediction r.confidence feats ≠ [] ∧
      "Apply appropriate fungicide or bactericide treatment" ∈
        generate_crop_recommendations r.prediction r.confidence feats ∧
      "Remove and destroy infected plant material" ∈
        generate_crop_recommendations r.prediction r.confidence feats ∧
      r.threshold_met = true) := by
  refine ⟨?_, ?_, ?_⟩
  · intro r h
    simp [calculate_severity, h]
  · intro r hne hc
    simp [calculate_severity, hne, hc]
  · intro env st st₂ image r feats hp hpred hconf
    have hdh : ¬ ("diseased" = "healthy") := by decide
    obtain ⟨hd, hl, cfg, scores, hcfg, hsc, hbr⟩ := predict_ok_inv hp
    obtain ⟨_, _, _, _, hthr, _⟩ := build_result_ok_inv hbr
    have hth : r.threshold_met = true := by
      rw [hthr, hconf]
      norm_num [CONFIDENCE_THRESHOLD]
    have hnl : ¬ ((92:ℚ)/100 < CONFIDENCE_THRESHOLD) := by
      norm_num [CONFIDENCE_THRESHOLD]
    have hbase : label_recommendations "diseased" =
        [ "Identify specific disease through detailed examination",
          "Apply appropriate fungicide or bactericide treatment",
          "Improve air circulation and reduce humidity",
          "Remove and destroy infected plant material",
          "Consider resistant crop varieties for future planting" ] := rfl
    rw [hpred, hconf]
    refine ⟨?_, ?_, ?_, ?_, hth⟩
    · simp [calculate_severity, hpred, hconf, hdh]
      norm_num
    · by_cases hq : assess_image_quality feats = "fair" ∨
        assess_image_quality feats = "poor" <;>
        simp [generate_crop_recommendations, hbase, hnl, hq]
    · by_cases hq : assess_image_quality feats = "fair" ∨
        assess_image_quality feats = "poor" <;>
        simp [generate_crop_recommendations, hbase, hnl, hq]
    · by_cases hq : assess_image_quality feats = "fair" ∨
        assess_image_quality feats = "poor" <;>
        simp [generate_crop_recommendations, hbase, hnl, hq]

/-- An environment whose seeded crop-health Dirichlet draw puts mass 0.92
on `"diseased"`. -/
def env9 : NpEnv :=
  { exp := fun _ => 1
    rng := fun n => if n = 4 then [1/50, 23/25, 1/25, 1/50] else pointMass n
    fs := fun _ => .missing }

/-- The prediction `env9` yields for crop health in mock mode. -/
def res9 : PredResult :=
  { prediction := "diseased", confidence := 23/25
    class_probabilities := [("healthy", 1/50), ("diseased", 23/25),
      ("nutrient_deficiency", 1/25), ("pest_damage", 1/50)]
    model_name := "crop_health", model_version := "1.0.0", threshold_met := true }

lemma env9_predict :
    predict env9 initState imgW "crop_health" = .ok (res9, stW) := by
  norm_num [predict, load_model, lookupConfig, MODEL_CONFIG, predict_with, compute_scores,
    mock_prediction, build_result, argmax, argmaxAux, LoaderState.store, create_mock_model,
    initState, Handle.is_mock, CONFIDENCE_THRESHOLD, maxList, env9, imgW, stW, res9]
  rw [if_neg (List.cons_ne_nil _ _)]

/-- Concrete image features for the witness scenario. -/
def feats9 : ImageFeatures := { sharpness := 200, contrast := 1/2 }

/-- C9 witness: the scenario instantiated on the concrete `env9` run. -/
theorem C9_witness :
    calculate_severity res9 = "high" ∧
      generate_crop_recommendations res9.prediction res9.confidence feats9 ≠ [] ∧
      "Apply appropriate fungicide or bactericide treatment" ∈
        generate_crop_recommendations res9.prediction res9.confidence feats9 ∧
      "Remove and destroy infected plant material" ∈
        generate_crop_recommendations res9.prediction res9.confidence feats9 ∧
      res9.threshold_met = true :=
  C9_crop_severity.2.2 env9 initState stW imgW res9 feats9 env9_predict rfl
    (by norm_num [res9])

/-! ## C10 — mock predictions ignore the image -/

/-- The `classes` entry of a mock handle dict (`None` for real handles,
which need not carry one). -/
def Handle.mock_classes : Handle → Option (List String)
  | .mock c _ => some c
  | .real _ => none

/-- A loader with mock handles for both crop health and soil analysis. -/
def st10 : LoaderState :=
  { models := [("crop_health", Handle.mock cropCfg.classes cropCfg.input_shape),
               ("soil_analysis", Handle.mock soilCfg.classes soilCfg.input_shape)]
    version := "1.0.0", reads := 0 }

/-- The prediction `witEnv` yields for soil analysis in mock mode. -/
def resSoil : PredResult :=
  { prediction := "clay", confidence := 1
    class_probabilities := [("clay", 1), ("sandy", 0), ("loamy", 0), ("silt", 0)]
    model_name := "soil_analysis", model_version := "1.0.0", threshold_met := true }

lemma st10_predict_crop :
    predict witEnv st10 imgW "crop_health" = .ok (resW, st10) := by
  norm_num [predict, st10, predict_with, lookupConfig, MODEL_CONFIG, compute_scores,
    mock_prediction, build_result, argmax, argmaxAux, Handle.is_mock, cropCfg, soilCfg,
    CONFIDENCE_THRESHOLD, maxList, witEnv, pointMass, imgW, resW, List.lookup]
  rw [if_neg (List.cons_ne_nil _ _)]
  rfl

lemma st10_predict_soil :
    predict witEnv st10 imgW "soil_analysis" = .ok (resSoil, st10) := by
  have hs1 : decide ("crop_health" = "soil_analysis") = false := rfl
  have hs2 : ("soil_analysis" == "crop_health") = false := rfl
  norm_num [predict, st10, predict_with, lookupConfig, MODEL_CONFIG, compute_scores,
    mock_prediction, build_result, argmax, argmaxAux, Handle.is_mock, cropCfg, soilCfg,
    CONFIDENCE_THRESHOLD, maxList, witEnv, pointMass, imgW, resSoil, List.lookup,
    List.find?, hs1, hs2]
  rw [if_neg (List.cons_ne_nil _ _)]
  rfl

/-- C10 counterexample: crop health and soil analysis are both served by
mock handles with the same class count (four), and the image is the same,
yet the two `class_probabilities` mappings differ — the keys come from
each model's own class list.  Identical score vectors do not make the
mappings identical across models. -/
theorem C10_cex :
    (st10.models.lookup "crop_health").map Handle.is_mock = some true ∧
      (st10.models.lookup "soil_analysis").map Handle.is_mock = some true ∧
      ((st10.models.lookup "crop_health").bind Handle.mock_classes).map List.length =
        ((st10.models.lookup "soil_analysis").bind Handle.mock_classes).map List.length ∧
      predict witEnv st10 imgW "crop_health" = .ok (resW, st10) ∧
      predict witEnv st10 imgW "soil_analysis" = .ok (resSoil, st10) ∧
      resW.class_probabilities ≠ resSoil.class_probabilities := by
  refine ⟨rfl, rfl, rfl, st10_predict_crop, st10_predict_soil, ?_⟩
  intro hcontra
  have : ("healthy", (1 : ℚ)) = ("clay", (1 : ℚ)) := by
    have h0 := congrArg (fun l => l.headD ("", 0)) hcontra
    simp only [resW, resSoil, List.headD_cons] at h0
    exact h0
  have hfst := congrArg Prod.fst this
  simp at hfst

/-- C10 amended: the mock score generator never reads the image (it is
reseeded with the constant 42 and keyed only on the class count), so its
vector is identical across images and across models with equal class
counts; `predict` against the same mock-served model returns identical
results — including `class_probabilities` — for any two images.  Across
two different models the probability values coincide but the mappings
differ in their keys, as the counterexample shows. -/
theorem C10_mock_image_independence_amended :
    (∀ (env : NpEnv) (name : String) (img₁ img₂ : Tensor),
      mock_prediction env name img₁ = mock_prediction env name img₂) ∧
    (∀ (env : NpEnv) (name₁ name₂ : String) (cfg₁ cfg₂ : ModelCfg)
        (img₁ img₂ : Tensor),
      lookupConfig name₁ = some cfg₁ → lookupConfig name₂ = some cfg₂ →
      cfg₁.classes.length = cfg₂.classes.length →
      mock_prediction env name₁ img₁ = mock_prediction env name₂ img₂) ∧
    (∀ (env : NpEnv) (st : LoaderState) (name : String) (img₁ img₂ : Tensor)
        (hd : Handle),
      st.models.lookup name = some hd → hd.is_mock = true →
      predict env st img₁ name = predict env st img₂ name) := by
  refine ⟨?_, ?_, ?_⟩
  · intro env name img₁ img₂
    rfl
  · intro env name₁ name₂ cfg₁ cfg₂ img₁ img₂ h1 h2 hlen
    unfold mock_prediction
    rw [h1, h2]
    simp only [hlen]
  · intro env st name img₁ img₂ hd hl hm
    unfold predict
    rw [hl]
    cases hd with
    | mock c sh => rfl
    | real m => simp [Handle.is_mock] at hm

/-- A second, different concrete image. -/
def img2W : Tensor := [[[(7, 8, 9)]]]

/-- C10 witness: two different images against the mock crop-health handle
give the very same `predict` outcome. -/
theorem C10_witness :
    predict witEnv st10 imgW "crop_health" = predict witEnv st10 img2W "crop_health" :=
  C10_mock_image_independence_amended.2.2 witEnv st10 "crop_health" imgW img2W
    (Handle.mock cropCfg.classes cropCfg.input_shape) rfl rfl
